import Mathlib

/-!
Shallow embedding of `src/prompt_manager.py` (class `PromptManager` with its
pydantic model `Prompt`).

Modelling conventions:
* Python attribute values that flow through the `Prompt` model are dynamically
  typed; we embed them as `FieldVal` (string / int / dict / None).
* A pydantic `Prompt` instance is a `RawPrompt`: a record of ten `FieldVal`
  fields.  After `model_copy(update=...)` (which pydantic performs WITHOUT
  validation) a stored `RawPrompt` may hold type-incorrect values, exactly as
  in the Python code.
* A Python `dict` argument (`prompt_data`, `updated_data`, one JSON object of
  the snapshot array) is a `PDict`: each of the ten known keys is either
  absent (`none`) or present with a value.  pydantic ignores unknown keys.
* `Prompt(**d)` is `parsePrompt d : Option RawPrompt`: `none` is the
  `ValidationError` path; defaults are applied for absent optional keys.
* JSON serialisation of a dumped record list is faithful for these value
  shapes, so the durable snapshot is modelled as the `List PDict` of
  per-record `model_dump`s.
* The sentinel index `-1` of `_find_prompt_index` / `_find_prompt_index_by_id`
  is `Option Nat`'s `none`.
* `uuid.uuid4()` is nondeterministic input: the fresh id is a parameter.
-/

namespace PromptManager

/-- A dynamically typed Python value as it can appear in a `Prompt` field:
a string, an int, a dict (the `score` mapping), or `None`. -/
inductive FieldVal where
  | vStr (s : String)
  | vInt (n : Int)
  | vDict (d : List (String × String))
  | vNone
deriving DecidableEq, Repr

open FieldVal

/-- A pydantic `Prompt` instance (src/prompt_manager.py lines 9-19): the ten
fields, each holding whatever value was put there.  Validation happens only in
`parsePrompt` (`Prompt(**data)`), never on `model_copy` updates. -/
structure RawPrompt where
  id : FieldVal
  datapoint : FieldVal
  clause : FieldVal
  created_by : FieldVal
  query_prompt : FieldVal
  version : FieldVal
  evaluated : FieldVal
  status : FieldVal
  score : FieldVal
  notes : FieldVal
deriving DecidableEq, Repr

/-- A Python dict over the ten known `Prompt` keys: each key absent or
present with a value.  Extra keys are ignored by pydantic and so not
modelled. -/
structure PDict where
  id : Option FieldVal := none
  datapoint : Option FieldVal := none
  clause : Option FieldVal := none
  created_by : Option FieldVal := none
  query_prompt : Option FieldVal := none
  version : Option FieldVal := none
  evaluated : Option FieldVal := none
  status : Option FieldVal := none
  score : Option FieldVal := none
  notes : Option FieldVal := none
deriving DecidableEq, Repr

/-- `str`-typed required field check. -/
def isStr : FieldVal → Bool
  | vStr _ => true
  | _ => false

/-- `Optional[str]` field check. -/
def isOptStr : FieldVal → Bool
  | vStr _ => true
  | vNone => true
  | _ => false

/-- `Optional[int]` field check. -/
def isOptInt : FieldVal → Bool
  | vInt _ => true
  | vNone => true
  | _ => false

/-- `Optional[dict]` field check. -/
def isOptDict : FieldVal → Bool
  | vDict _ => true
  | vNone => true
  | _ => false

/-- `Prompt(**d)`: pydantic validation of a field dict against the `Prompt`
schema (lines 9-19).  Required `str` fields must be present and strings;
optional fields default (`id := None`, `version := 1`, `evaluated := 0`,
`status := "latest"`, `score := None`, `notes := None`) when absent and must
type-check when present.  `none` is the `ValidationError` path. -/
def parsePrompt (d : PDict) : Option RawPrompt :=
  let idv := d.id.getD vNone
  let versionv := d.version.getD (vInt 1)
  let evaluatedv := d.evaluated.getD (vInt 0)
  let statusv := d.status.getD (vStr "latest")
  let scorev := d.score.getD vNone
  let notesv := d.notes.getD vNone
  match d.datapoint, d.clause, d.created_by, d.query_prompt with
  | some dp, some cl, some cb, some qp =>
    if isStr dp && isStr cl && isStr cb && isStr qp &&
       isOptStr idv && isOptInt versionv && isOptInt evaluatedv &&
       isOptStr statusv && isOptDict scorev && isOptStr notesv
    then some ⟨idv, dp, cl, cb, qp, versionv, evaluatedv, statusv, scorev, notesv⟩
    else none
  | _, _, _, _ => none

/-- A stored record is schema-valid: exactly the per-field checks
`Prompt(**·)` would pass. -/
def isValidPrompt (p : RawPrompt) : Bool :=
  isOptStr p.id && isStr p.datapoint && isStr p.clause && isStr p.created_by &&
  isStr p.query_prompt && isOptInt p.version && isOptInt p.evaluated &&
  isOptStr p.status && isOptDict p.score && isOptStr p.notes

/-- `prompt.model_dump()`: the full field dict of a record, every key
present (`None`-valued fields dump as `null`). -/
def model_dump (p : RawPrompt) : PDict :=
  { id := some p.id, datapoint := some p.datapoint, clause := some p.clause,
    created_by := some p.created_by, query_prompt := some p.query_prompt,
    version := some p.version, evaluated := some p.evaluated,
    status := some p.status, score := some p.score, notes := some p.notes }

/-- `prompt.model_copy(update=u)` (line 104): overwrite exactly the supplied
keys, NO validation — pydantic's `model_copy` does not re-validate. -/
def model_copy_update (p : RawPrompt) (u : PDict) : RawPrompt :=
  { id := u.id.getD p.id, datapoint := u.datapoint.getD p.datapoint,
    clause := u.clause.getD p.clause, created_by := u.created_by.getD p.created_by,
    query_prompt := u.query_prompt.getD p.query_prompt,
    version := u.version.getD p.version, evaluated := u.evaluated.getD p.evaluated,
    status := u.status.getD p.status, score := u.score.getD p.score,
    notes := u.notes.getD p.notes }

/-- `prompt_data["id"] = new_id` (line 69): overwrite the `id` key of the
creation dict with the generated uuid string. -/
def withGeneratedId (d : PDict) (uid : String) : PDict :=
  { d with id := some (vStr uid) }

/-- The `(datapoint, clause)` match test of `_find_prompt_index`
(line 117): Python `==` on the two fields. -/
def matchesKey (dp cl : FieldVal) (p : RawPrompt) : Bool :=
  decide (p.datapoint = dp) && decide (p.clause = cl)

/-- The status test of `_find_prompt_index` (line 118):
`status is None or prompt.status == status`. -/
def statusOk (status : Option String) (p : RawPrompt) : Bool :=
  match status with
  | none => true
  | some s => decide (p.status = vStr s)

/-- `PromptManager._find_prompt_index` (lines 115-120): index of the FIRST
record matching `(datapoint, clause)` (and `status` when given), scanning
from the start; `none` is the Python `-1`. -/
def find_prompt_index (ps : List RawPrompt) (dp cl : FieldVal)
    (status : Option String) : Option Nat :=
  match ps with
  | [] => none
  | p :: rest =>
    if matchesKey dp cl p && statusOk status p then some 0
    else (find_prompt_index rest dp cl status).map (· + 1)

/-- `PromptManager._find_prompt_index_by_id` (lines 122-126): index of the
first record whose `id` equals the given string; `none` is `-1`. -/
def find_prompt_index_by_id (ps : List RawPrompt) (id : String) : Option Nat :=
  match ps with
  | [] => none
  | p :: rest =>
    if decide (p.id = vStr id) then some 0
    else (find_prompt_index_by_id rest id).map (· + 1)

/-- Outcome of `create_prompt`: the new collection and returned record on
success; the caught `ValidationError` path returning `None` with the
collection untouched; or an UNCAUGHT `TypeError` (only reachable when the
matched record's `version` is not an int, so that `version + 1` at line 76
raises outside the `except ValidationError`). -/
inductive CreateResult where
  | ok (ps : List RawPrompt) (p : RawPrompt)
  | validationError (ps : List RawPrompt)
  | typeError
deriving DecidableEq, Repr

/-- `PromptManager.create_prompt` (lines 66-86).  `new_id` stands for the
generated `uuid.uuid4()` string.  Steps: overwrite `id` in the dict, validate
(`Prompt(**prompt_data)`); search for the first `(datapoint, clause)` match
with NO status restriction; on a match set the new record's
`version := matched.version + 1`, `evaluated := 0`, flip the matched record's
`status` to `"superseded"` and append; otherwise just append.  `_save_prompts`
has no in-memory effect.  The `ps[i]?` miss branch is unreachable
(`find_prompt_index` only returns valid indices). -/
def create_prompt (ps : List RawPrompt) (new_id : String) (prompt_data : PDict) :
    CreateResult :=
  match parsePrompt (withGeneratedId prompt_data new_id) with
  | none => .validationError ps
  | some newp =>
    match find_prompt_index ps newp.datapoint newp.clause none with
    | some i =>
      match ps[i]? with
      | some existing =>
        match existing.version with
        | vInt v =>
          let newp2 := { newp with version := vInt (v + 1), evaluated := vInt 0 }
          .ok ((ps.set i { existing with status := vStr "superseded" }) ++ [newp2]) newp2
        | _ => .typeError
      | none => .typeError
    | none => .ok (ps ++ [newp]) newp

/-- `PromptManager.update_prompt` (lines 100-113): locate by id; overwrite
the given fields via `model_copy(update=updated_data)` (no validation — the
`except ValidationError` branch is dead code); replace in place; return the
updated record.  On a missing id return `none` with the collection untouched.
The `ps[i]?` miss branch is unreachable. -/
def update_prompt (ps : List RawPrompt) (id : String) (updated_data : PDict) :
    List RawPrompt × Option RawPrompt :=
  match find_prompt_index_by_id ps id with
  | some i =>
    match ps[i]? with
    | some p =>
      let p' := model_copy_update p updated_data
      (ps.set i p', some p')
    | none => (ps, none)
  | none => (ps, none)

/-- One filter stage of `get_prompts` (lines 90-97): Python `if value:` —
the filter applies only when the optional string is present and non-empty. -/
def applyFilter (get : RawPrompt → FieldVal) (v : Option String)
    (ps : List RawPrompt) : List RawPrompt :=
  match v with
  | none => ps
  | some s => if s = "" then ps else ps.filter (fun p => decide (get p = vStr s))

/-- `PromptManager.get_prompts` (lines 88-98): successively filter by `id`,
`datapoint`, `clause`, `status`; each filter is applied only when its value
is truthy (present and non-empty). -/
def get_prompts (ps : List RawPrompt)
    (id datapoint clause status : Option String) : List RawPrompt :=
  applyFilter (·.status) status
    (applyFilter (·.clause) clause
      (applyFilter (·.datapoint) datapoint
        (applyFilter (·.id) id ps)))

/-- The abstract remote blob store: whether the configured blob exists, and
(when it does) the parsed JSON array it holds. -/
structure BlobStore where
  blobExists : Bool
  blobData : List PDict
deriving DecidableEq, Repr

/-- Parse every element of a snapshot array; the first `ValidationError`
aborts the whole parse (the Python list comprehension raises out of the
loop). -/
def parseAll : List PDict → Option (List RawPrompt)
  | [] => some []
  | d :: ds =>
    match parsePrompt d, parseAll ds with
    | some p, some ps => some (p :: ps)
    | _, _ => none

/-- Parse a snapshot array: `[Prompt(**d) for d in data]` (line 46) inside
`try` — if any element fails validation the exception is caught at line 51
and the whole load yields the empty collection. -/
def parseSnapshot (ds : List PDict) : List RawPrompt :=
  (parseAll ds).getD []

/-- Serialise the collection for the snapshot: `[p.model_dump() for p in
prompts]` (line 58). -/
def snapshot (ps : List RawPrompt) : List PDict :=
  ps.map model_dump

/-- `PromptManager._load_prompts` (lines 37-53) as it executes given whether
the attributes it reads are defined at call time.  The body reads
`self.container_client` and `self.local_file_path`; if either attribute is
not yet set, the `AttributeError` is caught by `except Exception` (line 51)
and the load yields `[]`.  Otherwise: blob present ⇒ download, stage locally
and parse; blob absent ⇒ `[]` (not an error). -/
def load_prompts_run (attrsReady : Bool) (store : BlobStore) : List RawPrompt :=
  if attrsReady then
    if store.blobExists then parseSnapshot store.blobData else []
  else []

/-- The collection `PromptManager.__init__` (lines 22-35) actually builds:
`self.prompts = self._load_prompts()` runs at line 27, BEFORE lines 29-35
assign `self.container_client`, and `self.local_file_path` is never assigned
anywhere (line 26 sets `self.file_path`), so the load always runs with its
attributes undefined. -/
def init_prompts (store : BlobStore) : List RawPrompt :=
  load_prompts_run false store

/-- Durable state: contents of the local staging file and of the remote
blob (`none` = absent). -/
structure PersistState where
  localFile : Option (List PDict)
  remote : Option (List PDict)
deriving DecidableEq, Repr

/-- `PromptManager._save_prompts` (lines 55-64) as it executes given whether
`self.local_file_path` is defined at call time.  When defined: write the
snapshot to the staging file (full replace) and upload its bytes to the
remote path with `overwrite=True`.  When undefined: `open(self.local_file_path,
"w")` raises `AttributeError` before any write, caught at line 63 — no local
write, no upload. -/
def save_prompts_run (localFilePathSet : Bool) (ps : List RawPrompt)
    (st : PersistState) : PersistState :=
  if localFilePathSet then
    { localFile := some (snapshot ps), remote := some (snapshot ps) }
  else st

/-- `_save_prompts` as callable on a constructed `PromptManager`:
`self.local_file_path` is never assigned by any method, so every save runs
with the attribute undefined. -/
def save_prompts_mgr (ps : List RawPrompt) (st : PersistState) : PersistState :=
  save_prompts_run false ps st

/-- What the spec's §4.2 load step promises (modelled from the spec, for
comparison): blob present ⇒ the parsed sequence; absent ⇒ empty. -/
def load_per_spec (store : BlobStore) : List RawPrompt :=
  if store.blobExists then parseSnapshot store.blobData else []

/-- What the spec's §4.2 save step promises (modelled from the spec, for
comparison): serialise the full collection to the staging path and upload
the same bytes to the remote path, overwriting. -/
def save_per_spec (ps : List RawPrompt) : PersistState :=
  { localFile := some (snapshot ps), remote := some (snapshot ps) }

/-- A supplied-filter equality test: `none` (filter not supplied) accepts
everything, `some s` requires the field to equal the string. -/
def matchesF (v : FieldVal) : Option String → Bool
  | none => true
  | some s => decide (v = vStr s)

/-- Normalise a filter argument: an empty-string value behaves as if the
filter had not been supplied. -/
def normFilter : Option String → Option String
  | some s => if s = "" then none else some s
  | none => none

/-- Concrete creation dict: the four required fields, key `("D", "C")`. -/
def dC1 : PDict :=
  { datapoint := some (vStr "D"), clause := some (vStr "C"),
    created_by := some (vStr "A"), query_prompt := some (vStr "Q") }

/-- The record `create_prompt` builds from `dC1` with uuid `"u1"` on an
empty collection: the defaults `version = 1`, `evaluated = 0`,
`status = "latest"` apply. -/
def p1 : RawPrompt :=
  ⟨vStr "u1", vStr "D", vStr "C", vStr "A", vStr "Q", vInt 1, vInt 0,
   vStr "latest", vNone, vNone⟩

/-- The first record after it has been superseded. -/
def p1s : RawPrompt := { p1 with status := vStr "superseded" }

/-- The validated parse of `dC1` with generated id `"u2"`, before version
resolution against the existing lineage. -/
def np2 : RawPrompt := { p1 with id := vStr "u2" }

/-- The second record of the `("D", "C")` lineage: version bumped to 2. -/
def p2 : RawPrompt := { p1 with id := vStr "u2", version := vInt 2 }

/-- The record produced by a THIRD create with the same key: the version is
computed from the first (superseded) record, so it collides with `p2`. -/
def p3 : RawPrompt := { p1 with id := vStr "u3", version := vInt 2 }

/-- A creation dict equal to `dC1` except that it supplies an explicit
non-default status value (a valid `Optional[str]`). -/
def dC4 : PDict := { dC1 with status := some (vStr "superseded") }

/-- The record a duplicate-key create of `dC4` yields: version bumped and
`evaluated` reset, but the supplied status kept. -/
def p2x : RawPrompt :=
  { p1 with id := vStr "u2", version := vInt 2, status := vStr "superseded" }

end PromptManager

namespace PromptManager

open FieldVal

/-- Parsing a dict yields the supplied status value, or the default
`"latest"` when the `status` key is absent. -/
theorem parsePrompt_status (d : PDict) (p : RawPrompt)
    (h : parsePrompt d = some p) : p.status = d.status.getD (vStr "latest") := by
  simp only [parsePrompt] at h
  split at h
  · split at h
    · cases h; rfl
    · cases h
  · cases h

/-- A schema-valid record survives the dump-then-parse cycle unchanged. -/
theorem parsePrompt_model_dump (p : RawPrompt) (h : isValidPrompt p = true) :
    parsePrompt (model_dump p) = some p := by
  simp only [isValidPrompt, Bool.and_eq_true] at h
  simp only [parsePrompt, model_dump, Option.getD_some]
  simp_all

/-- When nothing in `pre` matches the key and `r` does, `_find_prompt_index`
locates `r`, the first match. -/
theorem find_append_first (dp cl : FieldVal) (r : RawPrompt)
    (pre post : List RawPrompt)
    (hpre : pre.filter (matchesKey dp cl) = [])
    (hr : matchesKey dp cl r = true) :
    find_prompt_index (pre ++ r :: post) dp cl none = some pre.length := by
  induction pre with
  | nil => simp [find_prompt_index, hr, statusOk]
  | cons q pre' ih =>
    have hq : matchesKey dp cl q = false := by
      by_contra hq'
      have hq'' : matchesKey dp cl q = true := by simpa using hq'
      simp [List.filter_cons_of_pos hq''] at hpre
    have hq' : ¬(matchesKey dp cl q = true) := by simp [hq]
    rw [List.filter_cons_of_neg hq'] at hpre
    simp [find_prompt_index, hq, ih hpre, statusOk]

/-- Looking up the position right after `pre` in `pre ++ r :: post` gives
`r`. -/
theorem getElem_append_mid {α : Type} (r : α) (pre post : List α) :
    (pre ++ r :: post)[pre.length]? = some r := by
  rw [List.getElem?_append_right (Nat.le_refl _)]
  simp

/-- Setting the position right after `pre` replaces `r` in place. -/
theorem set_append_mid {α : Type} (r r' : α) (pre post : List α) :
    (pre ++ r :: post).set pre.length r' = pre ++ r' :: post := by
  induction pre with
  | nil => rfl
  | cons q pre' ih => simp [List.set, ih]

/-- A supplied, non-empty filter stage is an equality filter; an absent
stage is a pass-through. -/
theorem applyFilter_eq_filter (get : RawPrompt → FieldVal) (v : Option String)
    (hv : v ≠ some "") (ps : List RawPrompt) :
    applyFilter get v ps = ps.filter (fun p => matchesF (get p) v) := by
  cases v with
  | none => simp [applyFilter, matchesF]
  | some s =>
    have hs : ¬(s = "") := fun h => hv (by rw [h])
    simp [applyFilter, matchesF, hs]

/-- A filter stage behaves identically after normalising an empty-string
value to an absent one. -/
theorem applyFilter_norm (get : RawPrompt → FieldVal) (v : Option String)
    (ps : List RawPrompt) :
    applyFilter get v ps = applyFilter get (normFilter v) ps := by
  cases v with
  | none => rfl
  | some s =>
    by_cases hs : s = ""
    · simp [applyFilter, normFilter, hs]
    · simp [applyFilter, normFilter, hs]

end PromptManager

namespace PromptManager

open FieldVal

/-- Claim C1: the lineage invariant FAILS on the code (code bug).  Three
creates with the same `(datapoint, clause)` key: the third create's lineage
lookup matches the first, already superseded record, so it computes
`version = 1 + 1 = 2` again.  The final collection holds two records of the
lineage with the same version 2 and BOTH with status `"latest"` — versions
are not distinct and the newest entry is not the unique `"latest"`. -/
theorem create_three_same_key_breaks_lineage :
    create_prompt [] "u1" dC1 = .ok [p1] p1 ∧
    create_prompt [p1] "u2" dC1 = .ok [p1s, p2] p2 ∧
    create_prompt [p1s, p2] "u3" dC1 = .ok [p1s, p2, p3] p3 ∧
    p2.version = p3.version ∧
    p2.status = vStr "latest" ∧ p3.status = vStr "latest" ∧
    p2.datapoint = p3.datapoint ∧ p2.clause = p3.clause := by decide

/-- Claim C2: load at construction FAILS on the code (code bug).
`__init__` runs `self._load_prompts()` before `self.container_client` is
assigned, and `_load_prompts` reads `self.local_file_path`, which no method
ever assigns (`__init__` sets `self.file_path`); the resulting
`AttributeError` is swallowed by the broad `except`, so the collection
starts empty even when the remote blob exists and parses to a non-empty
valid collection. -/
theorem init_load_ignores_existing_blob :
    (BlobStore.mk true [model_dump p1]).blobExists = true ∧
    parseSnapshot [model_dump p1] = [p1] ∧
    init_prompts ⟨true, [model_dump p1]⟩ = [] ∧
    load_per_spec ⟨true, [model_dump p1]⟩ = [p1] ∧
    init_prompts ⟨true, [model_dump p1]⟩ ≠
      load_per_spec ⟨true, [model_dump p1]⟩ := by decide

/-- Claim C3: persistence after mutation FAILS on the code (code bug).
A create succeeds and grows the in-memory collection, but `_save_prompts`
opens `self.local_file_path` — an attribute that is never assigned — so the
caught `AttributeError` aborts the save before any local write or upload:
the durable state is left untouched, never overwritten with the snapshot. -/
theorem save_after_create_never_persists :
    create_prompt [] "u1" dC1 = .ok [p1] p1 ∧
    save_prompts_mgr [p1] ⟨none, none⟩ = ⟨none, none⟩ ∧
    save_per_spec [p1] = ⟨some [model_dump p1], some [model_dump p1]⟩ ∧
    save_prompts_mgr [p1] ⟨none, none⟩ ≠ save_per_spec [p1] := by decide

/-- Claim C4, counterexample to the claim as stated: the collection holds
exactly one record with key `("D", "C")` (status latest, version 1), and a
second VALID record with the same key is created — but its creation dict
supplies `status = "superseded"`, and `create_prompt` keeps the supplied
status, so the new record's status is not `"latest"`. -/
theorem create_duplicate_key_status_override :
    [p1].filter (matchesKey (vStr "D") (vStr "C")) = [p1] ∧
    p1.status = vStr "latest" ∧ p1.version = vInt 1 ∧
    parsePrompt (withGeneratedId dC4 "u2") = some { np2 with status := vStr "superseded" } ∧
    create_prompt [p1] "u2" dC4 = .ok [p1s, p2x] p2x ∧
    p2x.status ≠ vStr "latest" := by decide

/-- Claim C4 (amended): given a collection holding exactly one record `r`
with the new record's `(datapoint, clause)` key (split as `pre ++ r :: post`
with no other match), creating a second valid record with that key yields a
new record with `version = V + 1`, `evaluated = 0`, and status equal to the
status supplied in the creation data (`"latest"` when none is supplied);
`r`'s status becomes `"superseded"`; the collection grows by exactly one
entry. -/
theorem create_duplicate_key_versioning
    (pre post : List RawPrompt) (r : RawPrompt) (prompt_data : PDict)
    (uid : String) (newp : RawPrompt) (V : Int)
    (hparse : parsePrompt (withGeneratedId prompt_data uid) = some newp)
    (hpre : pre.filter (matchesKey newp.datapoint newp.clause) = [])
    (hr : matchesKey newp.datapoint newp.clause r = true)
    (_hpost : post.filter (matchesKey newp.datapoint newp.clause) = [])
    (_hstatus : r.status = vStr "latest")
    (hV : r.version = vInt V) :
    create_prompt (pre ++ r :: post) uid prompt_data =
      .ok ((pre ++ { r with status := vStr "superseded" } :: post) ++
            [{ newp with version := vInt (V + 1), evaluated := vInt 0 }])
        { newp with version := vInt (V + 1), evaluated := vInt 0 } ∧
    ((pre ++ { r with status := vStr "superseded" } :: post) ++
      [{ newp with version := vInt (V + 1), evaluated := vInt 0 }]).length =
      (pre ++ r :: post).length + 1 ∧
    ({ newp with version := vInt (V + 1), evaluated := vInt 0 } : RawPrompt).status =
      prompt_data.status.getD (vStr "latest") := by
  have hfind := find_append_first newp.datapoint newp.clause r pre post hpre hr
  have hget := getElem_append_mid r pre post
  refine ⟨?_, by simp only [List.length_append, List.length_cons, List.length_nil],
    parsePrompt_status (withGeneratedId prompt_data uid) newp hparse⟩
  simp only [create_prompt, hparse, hfind, hget, hV, set_append_mid]

/-- Witness for the amended claim C4 at a concrete input: one existing
record `p1` with key `("D", "C")`, a second create with the same key and no
supplied status, yielding `p2` with version 2, evaluated 0, status latest,
and `p1` superseded. -/
theorem create_duplicate_key_versioning_witness :
    create_prompt [p1] "u2" dC1 = .ok [p1s, p2] p2 ∧
    p2.version = vInt 2 ∧ p2.evaluated = vInt 0 ∧
    p2.status = vStr "latest" ∧ dC1.status = none := by
  have h := create_duplicate_key_versioning [] [] p1 dC1 "u2" np2 1
    (by decide) (by decide) (by decide) (by decide) (by decide) (by decide)
  exact ⟨h.1, by decide, by decide, by decide, by decide⟩

/-- Claim C5: update validation FAILS on the code (code bug).  The code's
`model_copy(update=...)` performs no validation, so `update(id, {"version":
"abc"})` on a stored valid record succeeds, returns the patched record and
stores a schema-invalid value; no `ValidationError` path is reachable. -/
theorem update_admits_invalid_version :
    isValidPrompt p1 = true ∧
    update_prompt [p1] "u1" { version := some (vStr "abc") } =
      ([{ p1 with version := vStr "abc" }], some { p1 with version := vStr "abc" }) ∧
    isValidPrompt { p1 with version := vStr "abc" } = false := by decide

/-- Claim C6: id immutability FAILS on the code (code bug).  An update
whose field map contains an `"id"` key overwrites the stored record's id:
`model_copy` applies the `id` entry like any other field. -/
theorem update_changes_id :
    p1.id = vStr "u1" ∧
    update_prompt [p1] "u1" { id := some (vStr "zz") } =
      ([{ p1 with id := vStr "zz" }], some { p1 with id := vStr "zz" }) ∧
    ({ p1 with id := vStr "zz" } : RawPrompt).id ≠ p1.id := by decide

/-- Claim C7: for every collection and every subset of the four filters
with non-empty string values, `get_prompts` returns the subsequence of the
collection (insertion order preserved, via `List.filter`) satisfying the
conjunction of all supplied equality filters; with no filters supplied it
returns every stored record in original order. -/
theorem get_prompts_filters_conjunction
    (ps : List RawPrompt) (id datapoint clause status : Option String)
    (hid : id ≠ some "") (hdp : datapoint ≠ some "")
    (hcl : clause ≠ some "") (hst : status ≠ some "") :
    get_prompts ps id datapoint clause status =
      ps.filter (fun p =>
        matchesF p.id id && matchesF p.datapoint datapoint &&
        matchesF p.clause clause && matchesF p.status status) ∧
    get_prompts ps none none none none = ps := by
  constructor
  · rw [get_prompts,
      applyFilter_eq_filter _ _ hst, applyFilter_eq_filter _ _ hcl,
      applyFilter_eq_filter _ _ hdp, applyFilter_eq_filter _ _ hid,
      List.filter_filter, List.filter_filter, List.filter_filter]
    refine List.filter_congr fun a _ => ?_
    cases matchesF a.id id <;> cases matchesF a.datapoint datapoint <;>
      cases matchesF a.clause clause <;> cases matchesF a.status status <;> rfl
  · rfl

/-- Witness for C7 at a concrete input: a status filter selects exactly the
latest record, and the unfiltered query returns the whole collection. -/
theorem get_prompts_filters_conjunction_witness :
    get_prompts [p1s, p2] none none none (some "latest") = [p2] ∧
    get_prompts [p1s, p2] none none none none = [p1s, p2] := by
  have h := get_prompts_filters_conjunction [p1s, p2] none none none
    (some "latest") (by decide) (by decide) (by decide) (by decide)
  refine ⟨?_, h.2⟩
  rw [h.1]
  decide

/-- Claim C8: updating only `notes` returns a record with the same `id`,
`datapoint`, `clause`, `version` and `status` as the stored one and with the
new notes; the record keeps its position (the collection is the original
with only position `i` replaced) and every other stored record is
unchanged. -/
theorem update_notes_frame
    (ps : List RawPrompt) (id x : String) (i : Nat) (p : RawPrompt)
    (hfind : find_prompt_index_by_id ps id = some i)
    (hget : ps[i]? = some p) :
    update_prompt ps id { notes := some (vStr x) } =
      (ps.set i { p with notes := vStr x }, some { p with notes := vStr x }) ∧
    ({ p with notes := vStr x } : RawPrompt).id = p.id ∧
    ({ p with notes := vStr x } : RawPrompt).datapoint = p.datapoint ∧
    ({ p with notes := vStr x } : RawPrompt).clause = p.clause ∧
    ({ p with notes := vStr x } : RawPrompt).version = p.version ∧
    ({ p with notes := vStr x } : RawPrompt).status = p.status ∧
    ({ p with notes := vStr x } : RawPrompt).notes = vStr x ∧
    ∀ j, j ≠ i → (ps.set i { p with notes := vStr x })[j]? = ps[j]? := by
  refine ⟨?_, rfl, rfl, rfl, rfl, rfl, rfl, fun j hj => List.getElem?_set_ne (Ne.symm hj)⟩
  simp only [update_prompt, hfind, hget]
  rfl

/-- Witness for C8 at a concrete input: updating `p2`'s notes in a
two-record collection patches exactly position 1. -/
theorem update_notes_frame_witness :
    update_prompt [p1s, p2] "u2" { notes := some (vStr "x") } =
      ([p1s, { p2 with notes := vStr "x" }], some { p2 with notes := vStr "x" }) := by
  have h := update_notes_frame [p1s, p2] "u2" "x" 1 p2 (by decide) (by decide)
  exact h.1

/-- Claim C9: for every collection of schema-valid records, serialising to
the snapshot format (the array of per-record field dumps) and parsing it
back yields the same collection, same order. -/
theorem snapshot_round_trip (ps : List RawPrompt)
    (h : ∀ p ∈ ps, isValidPrompt p = true) :
    parseSnapshot (snapshot ps) = ps := by
  have key : ∀ l : List RawPrompt, (∀ p ∈ l, isValidPrompt p = true) →
      parseAll (snapshot l) = some l := by
    intro l
    induction l with
    | nil => intro _; rfl
    | cons p rest ih =>
      intro hl
      have hp := parsePrompt_model_dump p (hl p (by simp))
      have hr : ∀ q ∈ rest, isValidPrompt q = true := fun q hq => hl q (by simp [hq])
      have ihr := ih hr
      simp only [snapshot] at ihr
      simp [snapshot, parseAll, hp, ihr]
  simp [parseSnapshot, key ps h]

/-- Witness for C9 at a concrete input: a two-record collection (one
superseded, one latest) survives the dump-and-reload cycle. -/
theorem snapshot_round_trip_witness :
    parseSnapshot (snapshot [p1s, p2]) = [p1s, p2] :=
  snapshot_round_trip [p1s, p2] (by decide)

/-- Claim C10: an empty-string filter value behaves exactly as if the
filter had not been supplied (filters apply only when truthy); in
particular a status filter of `""` returns the entire collection. -/
theorem empty_string_filters_ignored
    (ps : List RawPrompt) (id datapoint clause status : Option String) :
    get_prompts ps id datapoint clause status =
      get_prompts ps (normFilter id) (normFilter datapoint)
        (normFilter clause) (normFilter status) ∧
    get_prompts ps none none none (some "") = ps := by
  constructor
  · rw [get_prompts, applyFilter_norm _ status, applyFilter_norm _ clause,
        applyFilter_norm _ datapoint, applyFilter_norm _ id]
    rfl
  · simp [get_prompts, applyFilter]

end PromptManager
